import Mathlib

/-!
Verification of the jarvis budget/router core against its specification.

Shallow embedding conventions:
* Python `Decimal` and `float` amounts are modelled as `ℚ` (exact arithmetic).
* Python `datetime` is modelled as a record of integer fields; comparison is
  lexicographic on (year, month, day, hour, minute, second), as in CPython.
* Python dicts with enum keys (`Budget.category_budgets`) are association
  lists with unique keys, insertion-ordered, as CPython dicts are.
* Mutating methods become functions returning the updated record; the ambient
  clock (`datetime.now()`) is passed in explicitly as a `now` argument.
-/

namespace Jarvis

/-- Embeds `BudgetCategory` (src/jarvis/core/models/budget.py). -/
inductive BudgetCategory where
  | food | housing | transport | utilities | entertainment
  | healthcare | education | shopping | savings | income | other
deriving DecidableEq, Repr

/-- Embeds `TransactionType` (src/jarvis/core/models/budget.py). -/
inductive TransactionType where
  | income | expense
deriving DecidableEq, Repr

/-- Embeds `RecurringFrequency` (src/jarvis/core/models/budget.py). -/
inductive RecurringFrequency where
  | daily | weekly | monthly | quarterly | yearly
deriving DecidableEq, Repr

/-- Embeds `GoalPriority` (src/jarvis/core/models/budget.py). -/
inductive GoalPriority where
  | low | medium | high | urgent
deriving DecidableEq, Repr

/-- Python `datetime.datetime` down to second precision (the source never
constructs sub-second bounds). -/
structure DateTime where
  year : Int
  month : Int
  day : Int
  hour : Int
  minute : Int
  second : Int
deriving DecidableEq, Repr

/-- Strict lexicographic order on integer lists, mirroring how CPython
compares `datetime` objects field by field. -/
def lexLt : List Int → List Int → Bool
  | [], [] => false
  | [], _ :: _ => true
  | _ :: _, [] => false
  | a :: as, b :: bs => if a < b then true else if b < a then false else lexLt as bs

/-- The comparison key of a `datetime`. -/
def DateTime.fields (d : DateTime) : List Int :=
  [d.year, d.month, d.day, d.hour, d.minute, d.second]

/-- Python `a < b` on datetimes. -/
def DateTime.pyLt (a b : DateTime) : Bool := lexLt a.fields b.fields

/-- Python `a > b` on datetimes. -/
def DateTime.pyGt (a b : DateTime) : Bool := lexLt b.fields a.fields

/-- Python `a <= b` on datetimes (total order: `a <= b` iff not `b < a`). -/
def DateTime.pyLe (a b : DateTime) : Bool := !(lexLt b.fields a.fields)

/-- Python `a >= b` on datetimes. -/
def DateTime.pyGe (a b : DateTime) : Bool := !(lexLt a.fields b.fields)

/-- Embeds the `Transaction` pydantic model (src/jarvis/core/models/budget.py).
Field defaults (`id`, `date`, `created_at` from factories, `currency="RUB"`,
empty `tags`, `is_recurring=False`) are supplied by callers of the
constructor, as pydantic does. -/
structure Transaction where
  id : String
  amount : ℚ
  currency : String
  category : BudgetCategory
  transaction_type : TransactionType
  description : String
  date : DateTime
  family_id : String
  created_by : String
  tags : List String
  is_recurring : Bool
  recurring_frequency : Option RecurringFrequency
  created_at : DateTime
  updated_at : Option DateTime
deriving DecidableEq, Repr

/-- The only pydantic validator on `Transaction`: `validate_amount` rejects
`amount <= 0`. A `Transaction` value is constructible exactly when this
holds; no other invariant is checked by the model. -/
def Transaction.constructible (t : Transaction) : Bool := decide (0 < t.amount)

/-- Embeds the classmethod `Transaction.create_expense`: fixes
`transaction_type = EXPENSE`, passes `category` through. The trailing
arguments stand for the pydantic defaults (`id`, `date`, `created_at`)
normally produced by default factories. -/
def Transaction.create_expense (amount : ℚ) (category : BudgetCategory)
    (description family_id created_by currency : String)
    (id : String) (date created_at : DateTime) : Transaction :=
  { id := id, amount := amount, currency := currency, category := category
    transaction_type := TransactionType.expense, description := description
    date := date, family_id := family_id, created_by := created_by
    tags := [], is_recurring := false, recurring_frequency := none
    created_at := created_at, updated_at := none }

/-- Embeds the classmethod `Transaction.create_income`: fixes
`category = INCOME` and `transaction_type = INCOME`. -/
def Transaction.create_income (amount : ℚ)
    (description family_id created_by currency : String)
    (id : String) (date created_at : DateTime) : Transaction :=
  { id := id, amount := amount, currency := currency
    category := BudgetCategory.income
    transaction_type := TransactionType.income, description := description
    date := date, family_id := family_id, created_by := created_by
    tags := [], is_recurring := false, recurring_frequency := none
    created_at := created_at, updated_at := none }

/-- Embeds the `CategoryBudget` pydantic model. -/
structure CategoryBudget where
  category : BudgetCategory
  limit : ℚ
  currency : String
  spent : ℚ
deriving DecidableEq, Repr

/-- Embeds `CategoryBudget.get_remaining`:
`max(Decimal('0'), self.limit - self.spent)`. -/
def CategoryBudget.get_remaining (cb : CategoryBudget) : ℚ :=
  max 0 (cb.limit - cb.spent)

/-- Embeds `CategoryBudget.get_progress_percentage`:
`100 if spent > 0 else 0` when `limit == 0`, else
`min(100, spent / limit * 100)`. -/
def CategoryBudget.get_progress_percentage (cb : CategoryBudget) : ℚ :=
  if cb.limit = 0 then (if cb.spent > 0 then 100 else 0)
  else min 100 (cb.spent / cb.limit * 100)

/-- Embeds `CategoryBudget.is_exceeded`: `self.spent > self.limit`. -/
def CategoryBudget.is_exceeded (cb : CategoryBudget) : Bool :=
  decide (cb.spent > cb.limit)

/-- Embeds `CategoryBudget.add_expense`: `self.spent += amount`. -/
def CategoryBudget.add_expense (cb : CategoryBudget) (amount : ℚ) : CategoryBudget :=
  { cb with spent := cb.spent + amount }

/-- Embeds the `Budget` pydantic model. `category_budgets` is the
`Dict[BudgetCategory, CategoryBudget]`, as an insertion-ordered association
list with unique keys. -/
structure Budget where
  id : String
  name : String
  family_id : String
  period_start : DateTime
  period_end : DateTime
  currency : String
  income_plan : ℚ
  income_actual : ℚ
  category_budgets : List (BudgetCategory × CategoryBudget)
  created_by : String
  created_at : DateTime
  updated_at : Option DateTime
deriving DecidableEq, Repr

/-- Python dict read `d[k]` / `k in d` on the category map. -/
def lookupCB (l : List (BudgetCategory × CategoryBudget)) (c : BudgetCategory) :
    Option CategoryBudget :=
  match l with
  | [] => none
  | (k, v) :: rest => if k = c then some v else lookupCB rest c

/-- Python dict write `d[k] = v`: replaces in place when the key exists
(keeping its position), otherwise appends, as CPython dicts do. -/
def storeCB (l : List (BudgetCategory × CategoryBudget)) (c : BudgetCategory)
    (v : CategoryBudget) : List (BudgetCategory × CategoryBudget) :=
  match l with
  | [] => [(c, v)]
  | (k, w) :: rest => if k = c then (c, v) :: rest else (k, w) :: storeCB rest c v

/-- Embeds `Budget.add_category_budget`: installs a fresh `CategoryBudget`
with the given limit, `spent = 0`, the budget's currency, and refreshes
`updated_at`. -/
def Budget.add_category_budget (b : Budget) (category : BudgetCategory)
    (limit : ℚ) (now : DateTime) : Budget :=
  { b with
    category_budgets := storeCB b.category_budgets category
      { category := category, limit := limit, currency := b.currency, spent := 0 }
    updated_at := some now }

/-- Embeds `Budget.update_category_limit`. -/
def Budget.update_category_limit (b : Budget) (category : BudgetCategory)
    (limit : ℚ) (now : DateTime) : Budget × Bool :=
  match lookupCB b.category_budgets category with
  | none => (b, false)
  | some cb =>
    ({ b with
       category_budgets := storeCB b.category_budgets category { cb with limit := limit }
       updated_at := some now }, true)

/-- Embeds `Budget.add_income`: `income_actual += amount`, refresh
`updated_at`. -/
def Budget.add_income (b : Budget) (amount : ℚ) (now : DateTime) : Budget :=
  { b with income_actual := b.income_actual + amount, updated_at := some now }

/-- Embeds `Budget.add_expense`: auto-creates a zero-limit `CategoryBudget`
when the category is new, then adds the amount to its `spent`, refreshing
`updated_at`. -/
def Budget.add_expense (b : Budget) (category : BudgetCategory) (amount : ℚ)
    (now : DateTime) : Budget :=
  let b1 := if (lookupCB b.category_budgets category).isNone
    then b.add_category_budget category 0 now else b
  match lookupCB b1.category_budgets category with
  | some cb =>
    { b1 with
      category_budgets := storeCB b1.category_budgets category (cb.add_expense amount)
      updated_at := some now }
  | none => b1

/-- Embeds `Budget.process_transaction`: rejects (returning `false` and
leaving the budget as is) when the date falls outside
`[period_start, period_end]` or the family differs; otherwise dispatches
on the transaction type and returns `true`. -/
def Budget.process_transaction (b : Budget) (t : Transaction) (now : DateTime) :
    Budget × Bool :=
  if t.date.pyLt b.period_start || t.date.pyGt b.period_end then (b, false)
  else if t.family_id ≠ b.family_id then (b, false)
  else
    match t.transaction_type with
    | TransactionType.income => (b.add_income t.amount now, true)
    | TransactionType.expense => (b.add_expense t.category t.amount now, true)

/-- Embeds the `FinancialGoal` pydantic model. -/
structure FinancialGoal where
  id : String
  name : String
  target_amount : ℚ
  current_amount : ℚ
  currency : String
  start_date : DateTime
  deadline : Option DateTime
  family_id : String
  created_by : String
  priority : GoalPriority
  notes : Option String
  created_at : DateTime
  updated_at : Option DateTime
deriving DecidableEq, Repr

/-- Embeds `FinancialGoal.get_remaining_amount`:
`max(Decimal('0'), target_amount - current_amount)`. -/
def FinancialGoal.get_remaining_amount (g : FinancialGoal) : ℚ :=
  max 0 (g.target_amount - g.current_amount)

/-- Embeds `FinancialGoal.is_completed`: `current_amount >= target_amount`. -/
def FinancialGoal.is_completed (g : FinancialGoal) : Bool :=
  decide (g.current_amount ≥ g.target_amount)

/-- Embeds `FinancialGoal.calculate_monthly_contribution`, with
`datetime.now()` passed in as `now`. Source order of checks: no deadline →
`None`; `remaining <= 0` → `0`; `now >= deadline` → the full remaining
amount; integer month difference `<= 0` → the full remaining amount; else
`remaining / months`. -/
def FinancialGoal.calculate_monthly_contribution (g : FinancialGoal)
    (now : DateTime) : Option ℚ :=
  match g.deadline with
  | none => none
  | some dl =>
    let remaining_amount := g.get_remaining_amount
    if remaining_amount ≤ 0 then some 0
    else if now.pyGe dl then some remaining_amount
    else
      let months_remaining : Int := (dl.year - now.year) * 12 + dl.month - now.month
      if months_remaining ≤ 0 then some remaining_amount
      else some (remaining_amount / (months_remaining : ℚ))

/-- Reference monthly-contribution function following the amended claim's
words: `None` iff the deadline is unset; `0` when the remaining amount
(`max(0, target - current)`) is zero; the full remaining amount when `now`
has reached the deadline or the integer month difference
`(deadlineYear - nowYear) * 12 + deadlineMonth - nowMonth` is not positive;
otherwise the remaining amount divided by that month difference. -/
def monthlyContributionRef (g : FinancialGoal) (now : DateTime) : Option ℚ :=
  match g.deadline with
  | Option.none => Option.none
  | some dl =>
    let remaining := max 0 (g.target_amount - g.current_amount)
    let months : Int := (dl.year - now.year) * 12 + dl.month - now.month
    if remaining ≤ 0 then some 0
    else if now.pyGe dl = true ∨ months ≤ 0 then some remaining
    else some (remaining / (months : ℚ))

/-- `calendar.isleap` from the Python standard library. -/
def isleap (y : Int) : Bool := y % 4 == 0 && (y % 100 != 0 || y % 400 == 0)

/-- `calendar.monthrange(year, month)[1]`: the number of days in the month
(29 for February of a leap year). -/
def days_in_month (y m : Int) : Int :=
  if m == 2 then (if isleap y then 29 else 28)
  else if m == 4 || m == 6 || m == 9 || m == 11 then 30
  else 31

/-- The Russian month name used by `Budget.create_monthly_budget` when
generating a default budget name. -/
def month_name_ru (m : Int) : String :=
  if m == 1 then "Январь" else if m == 2 then "Февраль"
  else if m == 3 then "Март" else if m == 4 then "Апрель"
  else if m == 5 then "Май" else if m == 6 then "Июнь"
  else if m == 7 then "Июль" else if m == 8 then "Август"
  else if m == 9 then "Сентябрь" else if m == 10 then "Октябрь"
  else if m == 11 then "Ноябрь" else "Декабрь"

/-- Embeds the classmethod `Budget.create_monthly_budget`. Raising
`ValueError` for a month outside `[1, 12]` is modelled as `Except.error`
with the source's message. `period_start` is the first instant of the
month, `period_end` is 23:59:59 on the last calendar day as given by
`calendar.monthrange`. The trailing `id`/`created_at` arguments stand for
the pydantic default factories. -/
def Budget.create_monthly_budget (year month : Int) (family_id created_by : String)
    (income_plan : ℚ) (name : Option String) (currency : String)
    (id : String) (created_at : DateTime) : Except String Budget :=
  if month < 1 || month > 12 then
    Except.error "Месяц должен быть от 1 до 12"
  else
    let period_start : DateTime := ⟨year, month, 1, 0, 0, 0⟩
    let period_end : DateTime := ⟨year, month, days_in_month year month, 23, 59, 59⟩
    let budget_name := match name with
      | some n => n
      | none => "Бюджет на " ++ month_name_ru month ++ " " ++ toString year
    Except.ok
      { id := id, name := budget_name, family_id := family_id
        period_start := period_start, period_end := period_end
        currency := currency, income_plan := income_plan, income_actual := 0
        category_budgets := [], created_by := created_by
        created_at := created_at, updated_at := none }

/-- Embeds the `ShoppingItem` pydantic model
(src/jarvis/core/models/shopping.py), to the fields the list-level
computations read. -/
structure ShoppingItem where
  id : String
  name : String
  quantity : ℚ
  unit : Option String
  category : String
  is_purchased : Bool
deriving DecidableEq, Repr

/-- Embeds the `ShoppingList` pydantic model, to the fields the list-level
computations read. -/
structure ShoppingList where
  id : String
  name : String
  family_id : String
  items : List ShoppingItem
  is_active : Bool
deriving DecidableEq, Repr

/-- Embeds `ShoppingList.get_purchased_items`. -/
def ShoppingList.get_purchased_items (l : ShoppingList) : List ShoppingItem :=
  l.items.filter (fun item => item.is_purchased)

/-- Embeds `ShoppingList.get_unpurchased_items`. -/
def ShoppingList.get_unpurchased_items (l : ShoppingList) : List ShoppingItem :=
  l.items.filter (fun item => !item.is_purchased)

/-- Embeds the property `ShoppingList.is_empty`. -/
def ShoppingList.is_empty (l : ShoppingList) : Bool := l.items.length == 0

/-- Embeds the property `ShoppingList.is_completed`:
`all(item.is_purchased for item in self.items) and not self.is_empty`. -/
def ShoppingList.is_completed (l : ShoppingList) : Bool :=
  l.items.all (fun item => item.is_purchased) && !l.is_empty

/-- Embeds the property `ShoppingList.progress`: `1.0` on an empty list,
otherwise the number of purchased items over the total item count. -/
def ShoppingList.progress (l : ShoppingList) : ℚ :=
  if l.is_empty then 1
  else (l.get_purchased_items.length : ℚ) / (l.items.length : ℚ)

/-! ## Router and domain-pipeline dispatch

The LLM calls and repository mutations are I/O oracles; everything each
function does with their results is embedded. Python result dicts become
insertion-ordered association lists of `PyVal`-valued entries. -/

/-- A Python value as it appears in the result dicts of
`ConversationRouter.route_message` and the graphs' `process_message`. -/
inductive PyVal where
  | none
  | str (s : String)
  | num (q : ℚ)
  | bool (b : Bool)
  | dict (entries : List (String × PyVal))

/-- A Python dict with string keys. -/
abbrev PyDict := List (String × PyVal)

/-- Python `k in d`. -/
def hasKey (d : PyDict) (k : String) : Bool :=
  d.any (fun kv => kv.1 == k)

/-- Python `d.get(k)` (`None` when absent). -/
def getKey (d : PyDict) (k : String) : Option PyVal :=
  match d with
  | [] => Option.none
  | (k0, v) :: rest => if k0 == k then some v else getKey rest k

/-- Python `d.get(k, default)`. -/
def getKeyD (d : PyDict) (k : String) (default : PyVal) : PyVal :=
  match getKey d k with
  | some v => v
  | Option.none => default

/-- Python `d[k] = v`: replaces the value in place when the key exists
(keeping its position), otherwise appends. -/
def setKey (d : PyDict) (k : String) (v : PyVal) : PyDict :=
  match d with
  | [] => [(k, v)]
  | (k0, w) :: rest => if k0 == k then (k, v) :: rest else (k0, w) :: setKey rest k v

/-- Python `d.update(u)`: write every entry of `u` into `d`. -/
def updateDict (d u : PyDict) : PyDict :=
  u.foldl (fun acc kv => setKey acc kv.1 kv.2) d

/-- The domain-classification record `_classify_intent` produces on the
router (`{domain, confidence, explanation}`). -/
structure DomainClassResult where
  domain : String
  confidence : ℚ
  explanation : String

/-- The classification record as the Python dict the router merges into its
result. -/
def DomainClassResult.toDict (c : DomainClassResult) : PyDict :=
  [("domain", PyVal.str c.domain), ("confidence", PyVal.num c.confidence),
   ("explanation", PyVal.str c.explanation)]

/-- The final graph state of `BudgetGraph`, as the key/value bag the
post-processing in `BudgetGraph.process_message` reads. -/
abbrev BudgetFinalState := PyDict

/-- Embeds the result post-processing of `BudgetGraph.process_message`
(src/jarvis/llm/graphs/budget_graph.py): when the final graph state has no
`"response"` key (the graph ended early on the `"not_budget_related"` edge)
it returns `is_budget_related=False` with `response=None`; otherwise it
returns the composed successful result. -/
def budget_process_message_result (final_state : BudgetFinalState) : PyDict :=
  if !(hasKey final_state "response") then
    [("is_budget_related", PyVal.bool false),
     ("response", PyVal.none),
     ("intent", getKeyD final_state "intent" (PyVal.str "other")),
     ("confidence", getKeyD final_state "intent_confidence" (PyVal.num 0))]
  else
    [("is_budget_related", PyVal.bool true),
     ("response", getKeyD final_state "response" PyVal.none),
     ("intent", getKeyD final_state "intent" (PyVal.str "")),
     ("operation_result", getKeyD final_state "operation_result" (PyVal.str "")),
     ("metadata", getKeyD final_state "operation_metadata" (PyVal.dict []))]

/-- Which graph produced the reply returned by the router. -/
inductive Handler where
  | general | task | shopping | budget
deriving DecidableEq, Repr

/-- Embeds `ConversationRouter.route_message`
(src/jarvis/llm/graphs/router.py). The four graphs' `process_message`
outcomes (`taskR`, `shoppingR`, `budgetR`, `generalR`) and the domain
classification `c` are oracle inputs; everything the router does with them
is modelled: the missing-family shortcut, the `confidence < 0.6` fallback
with classification tagging, dispatch on the domain string, the
`not result or "response" not in result` fallback check, and the final
merge of the classification metadata. The returned `Handler` records which
graph produced the reply dict. -/
def route_message (family_id : Option String) (c : DomainClassResult)
    (taskR shoppingR budgetR generalR : PyDict) : Handler × PyDict :=
  match family_id with
  | Option.none => (Handler.general, generalR)
  | some _ =>
    if c.confidence < 3/5 then
      (Handler.general, updateDict generalR c.toDict)
    else
      let dispatched : Handler × PyDict :=
        if c.domain == "task_management" then (Handler.task, taskR)
        else if c.domain == "shopping" then (Handler.shopping, shoppingR)
        else if c.domain == "budget" then (Handler.budget, budgetR)
        else (Handler.general, generalR)
      let checked : Handler × PyDict :=
        if dispatched.2.isEmpty || !(hasKey dispatched.2 "response") then
          (Handler.general, generalR)
        else dispatched
      if checked.2.isEmpty then checked
      else (checked.1, updateDict checked.2 c.toDict)

/-- The pipeline state fields `BudgetGraph._route_by_intent` reads:
`state.get("intent", "other")`, `state.get("intent_confidence", 0.0)`, and
whether the keys `"transaction_data"`, `"budget_data"`, `"goal_data"` are
present. -/
structure PipelineState where
  intent : String
  intent_confidence : ℚ
  has_transaction_data : Bool
  has_budget_data : Bool
  has_goal_data : Bool

/-- The intents `_route_by_intent` treats as needing transaction data. -/
def transaction_intents : List String := ["add_expense", "add_income"]

/-- The intents `_route_by_intent` treats as needing budget data. -/
def budget_intents : List String := ["create_budget", "update_budget"]

/-- The intents `_route_by_intent` treats as needing goal data. -/
def goal_intents : List String := ["create_goal", "update_goal"]

/-- Embeds `BudgetGraph._route_by_intent`
(src/jarvis/llm/graphs/budget_graph.py): low confidence or intent
`"other"` terminates the pipeline via the `"not_budget_related"` edge;
otherwise an extraction node is entered exactly when the intent's required
data key is absent, and `"direct_action"` goes straight to
`PROCESS_BUDGET_ACTION`. -/
def route_by_intent (s : PipelineState) : String :=
  if s.intent_confidence < 3/5 || s.intent == "other" then "not_budget_related"
  else if transaction_intents.contains s.intent && !s.has_transaction_data then
    "needs_transaction_extraction"
  else if budget_intents.contains s.intent && !s.has_budget_data then
    "needs_budget_extraction"
  else if goal_intents.contains s.intent && !s.has_goal_data then
    "needs_goal_extraction"
  else "direct_action"

/-- Following the spec's words (§4.3): the classified intent requires
structured data that is not already present in the state. -/
def requiredDataMissing (s : PipelineState) : Bool :=
  (transaction_intents.contains s.intent && !s.has_transaction_data) ||
  (budget_intents.contains s.intent && !s.has_budget_data) ||
  (goal_intents.contains s.intent && !s.has_goal_data)

/-! ## Concrete fixtures used by witnesses and counterexamples -/

/-- A January 2024 budget for family `fam1` with no category budgets and no
prior update timestamp. -/
def budgetJan2024 : Budget :=
  { id := "b1", name := "Бюджет", family_id := "fam1"
    period_start := ⟨2024, 1, 1, 0, 0, 0⟩, period_end := ⟨2024, 1, 31, 23, 59, 59⟩
    currency := "RUB", income_plan := 0, income_actual := 0
    category_budgets := [], created_by := "u1"
    created_at := ⟨2024, 1, 1, 0, 0, 0⟩, updated_at := Option.none }

/-- An expense transaction of family `fam1` dated February 5 2024 — outside
the period of `budgetJan2024`. -/
def txFeb2024 : Transaction :=
  { id := "t1", amount := 100, currency := "RUB", category := BudgetCategory.food
    transaction_type := TransactionType.expense, description := "обед"
    date := ⟨2024, 2, 5, 12, 0, 0⟩, family_id := "fam1", created_by := "u1"
    tags := [], is_recurring := false, recurring_frequency := Option.none
    created_at := ⟨2024, 2, 5, 12, 0, 0⟩, updated_at := Option.none }

/-- An income transaction of family `fam1` dated inside the period of
`budgetJan2024`. -/
def txIncomeJan2024 : Transaction :=
  { id := "t2", amount := 500, currency := "RUB", category := BudgetCategory.income
    transaction_type := TransactionType.income, description := "зарплата"
    date := ⟨2024, 1, 10, 9, 0, 0⟩, family_id := "fam1", created_by := "u1"
    tags := [], is_recurring := false, recurring_frequency := Option.none
    created_at := ⟨2024, 1, 10, 9, 0, 0⟩, updated_at := Option.none }

/-- A constructible transaction (`amount = 1 > 0` passes the only validator)
with `transaction_type = income` but `category = food`. -/
def txIncomeFood : Transaction :=
  { id := "t3", amount := 1, currency := "RUB", category := BudgetCategory.food
    transaction_type := TransactionType.income, description := "доход"
    date := ⟨2024, 1, 10, 9, 0, 0⟩, family_id := "fam1", created_by := "u1"
    tags := [], is_recurring := false, recurring_frequency := Option.none
    created_at := ⟨2024, 1, 10, 9, 0, 0⟩, updated_at := Option.none }

/-- A goal whose deadline (March 1 2024) is already past at the reference
time June 1 2024, with `1000 - 900 = 100` still remaining. -/
def goalPastDeadline : FinancialGoal :=
  { id := "g1", name := "Цель", target_amount := 1000, current_amount := 900
    currency := "RUB", start_date := ⟨2024, 1, 1, 0, 0, 0⟩
    deadline := some ⟨2024, 3, 1, 0, 0, 0⟩, family_id := "fam1"
    created_by := "u1", priority := GoalPriority.medium, notes := Option.none
    created_at := ⟨2024, 1, 1, 0, 0, 0⟩, updated_at := Option.none }

/-- A budget-graph final state that ended on the `"not_budget_related"`
edge: no `"response"` key was ever written. -/
def finalStateNotApplicable : BudgetFinalState :=
  [("intent", PyVal.str "other"), ("intent_confidence", PyVal.num (1/2))]

/-- The general graph's reply dict. -/
def generalReply : PyDict := [("response", PyVal.str "Общий ответ")]

/-- A confident domain classification pointing at the budget domain. -/
def classBudgetHigh : DomainClassResult := ⟨"budget", 9/10, "бюджетный запрос"⟩

/-- The spec's scenario list: milk unpurchased, bread purchased. -/
def sampleShoppingList : ShoppingList :=
  { id := "l1", name := "Покупки", family_id := "fam1"
    items :=
      [{ id := "i1", name := "milk", quantity := 1, unit := Option.none
         category := "dairy", is_purchased := false },
       { id := "i2", name := "bread", quantity := 1, unit := Option.none
         category := "bakery", is_purchased := true }]
    is_active := true }

/-! ## Helper lemmas -/

theorem getKey_setKey_self (d : PyDict) (k : String) (v : PyVal) :
    getKey (setKey d k v) k = some v := by
  induction d with
  | nil => simp [setKey, getKey]
  | cons kv rest ih =>
    by_cases h : kv.1 == k
    · simp [setKey, getKey, h]
    · simp [setKey, getKey, h, ih]

theorem getKey_setKey_ne (d : PyDict) (k k' : String) (v : PyVal) (h : k' ≠ k) :
    getKey (setKey d k v) k' = getKey d k' := by
  induction d with
  | nil =>
    simp [setKey, getKey]
    intro he
    exact absurd (by simpa using he.symm) h
  | cons kv rest ih =>
    by_cases hk : kv.1 == k
    · have hkk : kv.1 = k := by simpa using hk
      have hne : (k == k') = false := by
        simp [beq_iff_eq]
        exact fun he => h he.symm
      simp [setKey, getKey, hk, hkk, hne]
    · simp only [setKey, hk, Bool.false_eq_true, if_false]
      by_cases hv : kv.1 == k'
      · simp [getKey, hv]
      · simp [getKey, hv, ih]

/-! ## Claims -/

/-- C2: the three derived values of `CategoryBudget` agree with the spec's
reference formulas: `remaining = max(0, limit - spent)`,
`exceeded ↔ spent > limit`, and the three-case progress percentage. -/
theorem categoryBudget_derived_values (cb : CategoryBudget) :
    cb.get_remaining = max 0 (cb.limit - cb.spent) ∧
    (cb.is_exceeded = true ↔ cb.spent > cb.limit) ∧
    (0 < cb.limit → cb.get_progress_percentage = min 100 (cb.spent / cb.limit * 100)) ∧
    (cb.limit = 0 → 0 < cb.spent → cb.get_progress_percentage = 100) ∧
    (cb.limit = 0 → cb.spent = 0 → cb.get_progress_percentage = 0) := by
  refine ⟨rfl, by simp [CategoryBudget.is_exceeded], ?_, ?_, ?_⟩
  · intro h
    have hne : cb.limit ≠ 0 := ne_of_gt h
    simp [CategoryBudget.get_progress_percentage, hne]
  · intro h0 hs
    simp [CategoryBudget.get_progress_percentage, h0, hs]
  · intro h0 hs
    simp [CategoryBudget.get_progress_percentage, h0, hs]

/-- C2 witness: the derived values at concrete category budgets. -/
theorem categoryBudget_derived_values_witness :
    CategoryBudget.get_remaining ⟨BudgetCategory.food, 4, "RUB", 1⟩ = 3 ∧
    CategoryBudget.is_exceeded ⟨BudgetCategory.food, 4, "RUB", 5⟩ = true ∧
    CategoryBudget.get_progress_percentage ⟨BudgetCategory.food, 4, "RUB", 1⟩ = 25 ∧
    CategoryBudget.get_progress_percentage ⟨BudgetCategory.food, 0, "RUB", 5⟩ = 100 ∧
    CategoryBudget.get_progress_percentage ⟨BudgetCategory.food, 0, "RUB", 0⟩ = 0 := by
  refine ⟨?_, ?_, ?_, ?_, ?_⟩
  · rw [(categoryBudget_derived_values _).1]; norm_num
  · exact (categoryBudget_derived_values _).2.1.mpr (by norm_num)
  · rw [(categoryBudget_derived_values _).2.2.1 (by norm_num)]; norm_num
  · exact (categoryBudget_derived_values _).2.2.2.1 rfl (by norm_num)
  · exact (categoryBudget_derived_values _).2.2.2.2 rfl rfl

/-- C1: a transaction whose date falls outside `[period_start, period_end]`
or whose family differs is rejected: `process_transaction` returns `false`
and the budget — every field of it — is returned unchanged. -/
theorem process_transaction_rejects_out_of_scope (b : Budget) (t : Transaction)
    (now : DateTime)
    (h : ¬(b.period_start.pyLe t.date = true ∧ t.date.pyLe b.period_end = true) ∨
      t.family_id ≠ b.family_id) :
    b.process_transaction t now = (b, false) := by
  by_cases hd : (t.date.pyLt b.period_start || t.date.pyGt b.period_end) = true
  · simp [Budget.process_transaction, hd]
  · have hdf : (t.date.pyLt b.period_start || t.date.pyGt b.period_end) = false :=
      eq_false_of_ne_true hd
    have hd1 : t.date.pyLt b.period_start = false := (Bool.or_eq_false_iff.mp hdf).1
    have hd2 : t.date.pyGt b.period_end = false := (Bool.or_eq_false_iff.mp hdf).2
    rcases h with h | h
    · exfalso
      apply h
      constructor
      · simp [DateTime.pyLe, DateTime.pyLt] at hd1 ⊢
        exact hd1
      · simp [DateTime.pyLe, DateTime.pyGt] at hd2 ⊢
        exact hd2
    · simp [Budget.process_transaction, hd, h]

/-- C1 witness: the February transaction is rejected by the January budget
and the budget is unchanged. -/
theorem process_transaction_rejects_witness :
    (¬(budgetJan2024.period_start.pyLe txFeb2024.date = true ∧
        txFeb2024.date.pyLe budgetJan2024.period_end = true) ∨
      txFeb2024.family_id ≠ budgetJan2024.family_id) ∧
    budgetJan2024.process_transaction txFeb2024 ⟨2024, 2, 5, 12, 0, 1⟩ =
      (budgetJan2024, false) :=
  ⟨by decide,
   process_transaction_rejects_out_of_scope budgetJan2024 txFeb2024
     ⟨2024, 2, 5, 12, 0, 1⟩ (by decide)⟩

/-- C3 counterexample: for `goalPastDeadline`, "now" (June 1 2024) is past
the deadline (March 1 2024) and the remaining amount is `100 > 0`, yet
`calculate_monthly_contribution` returns the full remaining `100`, not the
`0` the claim demands. -/
theorem monthly_contribution_past_deadline_counterexample :
    DateTime.pyGe ⟨2024, 6, 1, 0, 0, 0⟩ ⟨2024, 3, 1, 0, 0, 0⟩ = true ∧
    goalPastDeadline.deadline = some ⟨2024, 3, 1, 0, 0, 0⟩ ∧
    goalPastDeadline.calculate_monthly_contribution ⟨2024, 6, 1, 0, 0, 0⟩ = some 100 ∧
    some (100 : ℚ) ≠ some (0 : ℚ) := by
  refine ⟨by decide, rfl, ?_, by norm_num⟩
  norm_num [FinancialGoal.calculate_monthly_contribution,
    FinancialGoal.get_remaining_amount, goalPastDeadline, DateTime.pyGe,
    DateTime.fields, lexLt]

/-- C3 (amended): `calculate_monthly_contribution` returns `None` iff the
deadline is unset; it returns `0` when the remaining amount is zero; it
returns the full remaining amount (not `0`) when now has reached the
deadline or the month difference is not positive; otherwise it returns
remaining divided by the integer month difference. -/
theorem calculate_monthly_contribution_matches_ref (g : FinancialGoal) (now : DateTime) :
    g.calculate_monthly_contribution now = monthlyContributionRef g now ∧
    (g.calculate_monthly_contribution now = Option.none ↔ g.deadline = Option.none) := by
  constructor
  · unfold FinancialGoal.calculate_monthly_contribution monthlyContributionRef
    cases hdl : g.deadline with
    | none => rfl
    | some dl =>
      by_cases h1 : max 0 (g.target_amount - g.current_amount) ≤ 0
      · simp [FinancialGoal.get_remaining_amount, h1]
      · by_cases h2 : now.pyGe dl = true
        · simp [FinancialGoal.get_remaining_amount, h1, h2]
        · by_cases h3 : ((dl.year - now.year) * 12 + dl.month - now.month : Int) ≤ 0
          · simp [FinancialGoal.get_remaining_amount, h1, h2, h3]
          · simp [FinancialGoal.get_remaining_amount, h1, h2, h3]
  · unfold FinancialGoal.calculate_monthly_contribution
    cases hdl : g.deadline with
    | none => simp
    | some dl =>
      simp only [Option.some.injEq]
      split_ifs <;> simp

/-- C4 (amended): an income transaction accepted by `process_transaction`
increases `income_actual` by exactly the transaction amount and refreshes
`updated_at` to the processing time; every other field of the budget is
unchanged. -/
theorem process_income_transaction_effect (b : Budget) (t : Transaction)
    (now : DateTime)
    (hs : b.period_start.pyLe t.date = true) (he : t.date.pyLe b.period_end = true)
    (hf : t.family_id = b.family_id)
    (hty : t.transaction_type = TransactionType.income) :
    b.process_transaction t now =
      ({ b with
          income_actual := b.income_actual + t.amount
          updated_at := some now }, true) := by
  have hd1 : t.date.pyLt b.period_start = false := by
    simp only [DateTime.pyLe, Bool.not_eq_true'] at hs
    simpa [DateTime.pyLt] using hs
  have hd2 : t.date.pyGt b.period_end = false := by
    simp only [DateTime.pyLe, Bool.not_eq_true'] at he
    simpa [DateTime.pyGt] using he
  unfold Budget.process_transaction
  rw [hd1, hd2]
  simp [hf, hty, Budget.add_income]

/-- C4 counterexample: the accepted income transaction `txIncomeJan2024`
does change a field besides `income_actual`: `updated_at` moves from
`None` to the processing time, refuting "all remaining fields are
unchanged". -/
theorem process_income_updates_updated_at_counterexample :
    (budgetJan2024.process_transaction txIncomeJan2024 ⟨2024, 1, 10, 9, 0, 1⟩).2 = true ∧
    txIncomeJan2024.transaction_type = TransactionType.income ∧
    (budgetJan2024.process_transaction txIncomeJan2024 ⟨2024, 1, 10, 9, 0, 1⟩).1.updated_at ≠
      budgetJan2024.updated_at := by
  refine ⟨rfl, rfl, by decide⟩

/-- C4 witness: the effect theorem applied to the concrete January budget
and income transaction. -/
theorem process_income_transaction_effect_witness :
    budgetJan2024.period_start.pyLe txIncomeJan2024.date = true ∧
    budgetJan2024.process_transaction txIncomeJan2024 ⟨2024, 1, 10, 9, 0, 1⟩ =
      ({ budgetJan2024 with
          income_actual := budgetJan2024.income_actual + txIncomeJan2024.amount
          updated_at := some ⟨2024, 1, 10, 9, 0, 1⟩ }, true) :=
  ⟨by decide,
   process_income_transaction_effect budgetJan2024 txIncomeJan2024
     ⟨2024, 1, 10, 9, 0, 1⟩ (by decide) (by decide) rfl rfl⟩

/-- C5: when the budget pipeline reports "not applicable" (its final state
carries no `"response"` key), its `process_message` result nevertheless
contains a `"response"` key holding `None`, so the router's fallback test
`"response" not in result` fails and the router returns the pipeline's
not-applicable dict — with a `None` reply — instead of invoking the
General handler. Evaluated here at a concrete not-applicable run. -/
theorem router_misses_not_applicable_signal :
    hasKey finalStateNotApplicable "response" = false ∧
    getKey (budget_process_message_result finalStateNotApplicable)
      "is_budget_related" = some (PyVal.bool false) ∧
    (route_message (some "fam1") classBudgetHigh [] []
        (budget_process_message_result finalStateNotApplicable) generalReply).1 =
      Handler.budget ∧
    getKey (route_message (some "fam1") classBudgetHigh [] []
        (budget_process_message_result finalStateNotApplicable) generalReply).2
      "response" = some PyVal.none := by
  refine ⟨rfl, rfl, ?_, ?_⟩
  · unfold route_message
    rw [if_neg (by norm_num [classBudgetHigh])]
    rfl
  · unfold route_message
    rw [if_neg (by norm_num [classBudgetHigh])]
    rfl

/-- C6: with a family present and classification confidence below 0.6, the
router hands the message to the General handler regardless of the domain
label, and merges the attempted classification (domain, confidence,
explanation) into the General handler's reply. -/
theorem router_low_confidence_uses_general (f : String) (c : DomainClassResult)
    (taskR shoppingR budgetR generalR : PyDict)
    (h : c.confidence < 3/5) :
    route_message (some f) c taskR shoppingR budgetR generalR =
      (Handler.general, updateDict generalR c.toDict) ∧
    getKey (route_message (some f) c taskR shoppingR budgetR generalR).2
      "domain" = some (PyVal.str c.domain) ∧
    getKey (route_message (some f) c taskR shoppingR budgetR generalR).2
      "confidence" = some (PyVal.num c.confidence) ∧
    getKey (route_message (some f) c taskR shoppingR budgetR generalR).2
      "explanation" = some (PyVal.str c.explanation) := by
  have hroute : route_message (some f) c taskR shoppingR budgetR generalR =
      (Handler.general, updateDict generalR c.toDict) := by
    unfold route_message
    rw [if_pos h]
  have hupd : updateDict generalR c.toDict =
      setKey (setKey (setKey generalR "domain" (PyVal.str c.domain))
        "confidence" (PyVal.num c.confidence)) "explanation" (PyVal.str c.explanation) := rfl
  refine ⟨hroute, ?_, ?_, ?_⟩
  · rw [hroute]
    show getKey (updateDict generalR c.toDict) "domain" = some (PyVal.str c.domain)
    rw [hupd, getKey_setKey_ne _ _ _ _ (by decide), getKey_setKey_ne _ _ _ _ (by decide),
      getKey_setKey_self]
  · rw [hroute]
    show getKey (updateDict generalR c.toDict) "confidence" = some (PyVal.num c.confidence)
    rw [hupd, getKey_setKey_ne _ _ _ _ (by decide), getKey_setKey_self]
  · rw [hroute]
    show getKey (updateDict generalR c.toDict) "explanation" = some (PyVal.str c.explanation)
    rw [hupd, getKey_setKey_self]

/-- C6 witness: the low-confidence budget classification of the spec's
scenario 3 (`domain="budget"`, `confidence=0.4`) lands at the General
handler with the classification metadata merged in. -/
theorem router_low_confidence_uses_general_witness :
    route_message (some "fam1") ⟨"budget", 2/5, "объяснение"⟩ [] [] [] generalReply =
      (Handler.general,
        updateDict generalReply (DomainClassResult.toDict ⟨"budget", 2/5, "объяснение"⟩)) ∧
    getKey (route_message (some "fam1") ⟨"budget", 2/5, "объяснение"⟩ [] [] [] generalReply).2
      "domain" = some (PyVal.str "budget") ∧
    getKey (route_message (some "fam1") ⟨"budget", 2/5, "объяснение"⟩ [] [] [] generalReply).2
      "confidence" = some (PyVal.num (2/5)) ∧
    getKey (route_message (some "fam1") ⟨"budget", 2/5, "объяснение"⟩ [] [] [] generalReply).2
      "explanation" = some (PyVal.str "объяснение") :=
  router_low_confidence_uses_general "fam1" ⟨"budget", 2/5, "объяснение"⟩
    [] [] [] generalReply (by norm_num)

/-- C7 counterexample: the `Transaction` model admits (its only validator,
`amount > 0`, passes) a transaction with `transaction_type = income` and
`category = food`: nothing in the model forces income transactions into the
income category. -/
theorem income_transaction_category_not_enforced :
    txIncomeFood.constructible = true ∧
    txIncomeFood.transaction_type = TransactionType.income ∧
    txIncomeFood.category ≠ BudgetCategory.income := by
  refine ⟨by decide, rfl, by decide⟩

/-- C7 (amended): transactions built via the `create_income` factory do
satisfy the invariant: their type is income and their category is income;
the model itself does not enforce it for arbitrary constructible
transactions. -/
theorem create_income_invariant (amount : ℚ)
    (description family_id created_by currency id : String)
    (date created_at : DateTime) :
    (Transaction.create_income amount description family_id created_by currency
      id date created_at).transaction_type = TransactionType.income ∧
    (Transaction.create_income amount description family_id created_by currency
      id date created_at).category = BudgetCategory.income :=
  ⟨rfl, rfl⟩

/-- C8: leaving intent classification, the pipeline ends on the
`"not_budget_related"` edge exactly when confidence is below 0.6 or the
intent is `"other"`; otherwise it enters an extraction node exactly when
the intent's required structured data is absent from the state, and goes
straight to the action node exactly when it is not. -/
theorem route_by_intent_spec (s : PipelineState) :
    (route_by_intent s = "not_budget_related" ↔
      (s.intent_confidence < 3/5 ∨ s.intent = "other")) ∧
    (¬(s.intent_confidence < 3/5 ∨ s.intent = "other") →
      ((route_by_intent s = "needs_transaction_extraction" ∨
        route_by_intent s = "needs_budget_extraction" ∨
        route_by_intent s = "needs_goal_extraction") ↔ requiredDataMissing s = true) ∧
      (route_by_intent s = "direct_action" ↔ requiredDataMissing s = false)) := by
  by_cases hc : s.intent_confidence < 3/5 ∨ s.intent = "other"
  · have hb : (decide (s.intent_confidence < 3/5) || (s.intent == "other")) = true := by
      rcases hc with h | h
      · simp [h]
      · simp [h]
    constructor
    · simp [route_by_intent, hb, hc]
    · intro h
      exact absurd hc h
  · have hb : (decide (s.intent_confidence < 3/5) || (s.intent == "other")) = false := by
      push_neg at hc
      simp [hc.1, hc.2]
    have hroute : route_by_intent s =
        (if transaction_intents.contains s.intent && !s.has_transaction_data then
          "needs_transaction_extraction"
        else if budget_intents.contains s.intent && !s.has_budget_data then
          "needs_budget_extraction"
        else if goal_intents.contains s.intent && !s.has_goal_data then
          "needs_goal_extraction"
        else "direct_action") := by
      simp [route_by_intent, hb]
    refine ⟨?_, fun _ => ⟨?_, ?_⟩⟩
    · rw [hroute]
      constructor
      · intro h
        split_ifs at h <;> simp_all
      · intro h
        exact absurd h hc
    · rw [hroute]
      unfold requiredDataMissing
      split_ifs with h1 h2 h3 <;> simp_all
    · rw [hroute]
      unfold requiredDataMissing
      split_ifs with h1 h2 h3 <;> simp_all

/-- C8 witness: the routing decision at concrete pipeline states: intent
`"other"` terminates; a confident `"add_expense"` without transaction data
goes to extraction; with the data present it goes straight to the action
node. -/
theorem route_by_intent_spec_witness :
    route_by_intent ⟨"other", 1, false, false, false⟩ = "not_budget_related" ∧
    (route_by_intent ⟨"add_expense", 1, false, false, false⟩ =
        "needs_transaction_extraction" ∨
      route_by_intent ⟨"add_expense", 1, false, false, false⟩ =
        "needs_budget_extraction" ∨
      route_by_intent ⟨"add_expense", 1, false, false, false⟩ =
        "needs_goal_extraction") ∧
    route_by_intent ⟨"add_expense", 1, true, false, false⟩ = "direct_action" := by
  refine ⟨?_, ?_, ?_⟩
  · exact (route_by_intent_spec _).1.mpr (Or.inr rfl)
  · exact ((route_by_intent_spec _).2
      (not_or.mpr ⟨by norm_num, by decide⟩)).1.mpr (by decide)
  · exact ((route_by_intent_spec _).2
      (not_or.mpr ⟨by norm_num, by decide⟩)).2.mpr (by decide)

/-- C9: `create_monthly_budget` fails exactly when the month is outside
`[1, 12]`; on success the period runs from the first instant of the month
to 23:59:59 on its last calendar day (`calendar.monthrange`, leap years
included). -/
theorem create_monthly_budget_spec (year month : Int)
    (family_id created_by : String) (income_plan : ℚ) (name : Option String)
    (currency id : String) (created_at : DateTime) :
    ((Budget.create_monthly_budget year month family_id created_by income_plan
        name currency id created_at).toOption.isSome = true ↔
      (1 ≤ month ∧ month ≤ 12)) ∧
    (1 ≤ month → month ≤ 12 →
      (Budget.create_monthly_budget year month family_id created_by income_plan
          name currency id created_at).toOption.map
        (fun b => (b.period_start, b.period_end)) =
      some (⟨year, month, 1, 0, 0, 0⟩,
        ⟨year, month, days_in_month year month, 23, 59, 59⟩)) := by
  unfold Budget.create_monthly_budget
  split_ifs with h
  · have hm : month < 1 ∨ 12 < month := by simpa using h
    constructor
    · simp [Except.toOption]
      omega
    · intro h1 h2
      omega
  · have hm : 1 ≤ month ∧ month ≤ 12 := by
      simp at h
      omega
    constructor
    · simp [Except.toOption, hm.1, hm.2]
    · intro _ _
      simp [Except.toOption]

/-- C9 witness: February 2024 runs through Feb 29 23:59:59 (leap year), and
month 13 is rejected. -/
theorem create_monthly_budget_spec_witness :
    (Budget.create_monthly_budget 2024 2 "fam1" "u1" 0 Option.none "RUB" "b2"
        ⟨2024, 1, 1, 0, 0, 0⟩).toOption.map
      (fun b => (b.period_start, b.period_end)) =
      some (⟨2024, 2, 1, 0, 0, 0⟩, ⟨2024, 2, 29, 23, 59, 59⟩) ∧
    (Budget.create_monthly_budget 2024 13 "fam1" "u1" 0 Option.none "RUB" "b3"
        ⟨2024, 1, 1, 0, 0, 0⟩).toOption.isSome = false := by
  constructor
  · exact ((create_monthly_budget_spec 2024 2 "fam1" "u1" 0 Option.none "RUB" "b2"
      ⟨2024, 1, 1, 0, 0, 0⟩).2 (by decide) (by decide)).trans (by decide)
  · have h := (create_monthly_budget_spec 2024 13 "fam1" "u1" 0 Option.none "RUB" "b3"
      ⟨2024, 1, 1, 0, 0, 0⟩).1
    rw [Bool.eq_false_iff]
    intro hx
    exact absurd (h.mp hx) (by decide)

/-- C10: the empty shopping list has progress 1.0 and does not count as
completed; a non-empty list's progress is the purchased count over the
total count, and it is completed exactly when every item is purchased. -/
theorem shoppingList_progress_spec (l : ShoppingList) :
    (l.items = [] → l.progress = 1 ∧ l.is_completed = false) ∧
    (l.items ≠ [] →
      l.progress = ((l.items.countP (fun i => i.is_purchased) : ℕ) : ℚ) /
        ((l.items.length : ℕ) : ℚ) ∧
      (l.is_completed = true ↔ ∀ i ∈ l.items, i.is_purchased = true)) := by
  constructor
  · intro h
    constructor
    · simp [ShoppingList.progress, ShoppingList.is_empty, h]
    · simp [ShoppingList.is_completed, ShoppingList.is_empty, h]
  · intro h
    have hne : l.items.length ≠ 0 := by simpa using h
    have hempty : l.is_empty = false := by simp [ShoppingList.is_empty, hne]
    constructor
    · simp only [ShoppingList.progress, hempty, Bool.false_eq_true, if_false,
        ShoppingList.get_purchased_items]
      rw [List.countP_eq_length_filter]
    · simp [ShoppingList.is_completed, hempty, List.all_eq_true]

/-- C10 witness: the spec's scenario list (milk unpurchased, bread
purchased) has progress one half and is not completed. -/
theorem shoppingList_progress_spec_witness :
    sampleShoppingList.progress = 1/2 ∧
    sampleShoppingList.is_completed = false := by
  have h := (shoppingList_progress_spec sampleShoppingList).2 (by simp [sampleShoppingList])
  constructor
  · rw [h.1]
    norm_num [sampleShoppingList, List.countP, List.countP.go]
  · rw [Bool.eq_false_iff]
    intro hx
    have hall := h.2.mp hx
    have hmilk := hall (sampleShoppingList.items.head (by simp [sampleShoppingList]))
      (List.head_mem _)
    simp [sampleShoppingList] at hmilk

end Jarvis
